import Mathlib

/-!
Formal model of the fetch-validate-render pipeline of the static status
dashboard implemented in `src/app.js`: the resource fetcher `fetchJson`,
the HTML-escaping helper `esc`, the status renderer `renderLog`, the list
renderer `renderList`, and the top-level orchestrator (the self-invoking
async block at the bottom of the file).  JavaScript strings are modelled by
Lean `String` (a list of characters), `undefined`/`null` string values by
`Option String`, and thrown errors by an `Except` result.
-/

namespace Dashboard

/-! ### JavaScript string primitives -/

/-- Character-level escaping table of `esc` (`src/app.js` line 21):
`&`, `<`, `>`, `"`, `'` are replaced by their HTML entities, every other
character is kept. -/
def escCharL (c : Char) : List Char :=
  if c == '&' then "&amp;".data
  else if c == '<' then "&lt;".data
  else if c == '>' then "&gt;".data
  else if c == '"' then "&quot;".data
  else if c == '\'' then "&#39;".data
  else [c]

/-- Escape every character of a character list. -/
def escL : List Char → List Char
  | [] => []
  | c :: cs => escCharL c ++ escL cs

/-- Escaping on strings: the regex replace of `esc` applied to a genuine
string value. -/
def escStr (s : String) : String :=
  ⟨escL s.data⟩

/-- The source's `esc`: `(s??'').toString().replace(...)`.  A `none`
argument models a JavaScript `null`/`undefined` value, which `??` turns
into the empty string before escaping. -/
def esc (s : Option String) : String :=
  escStr (s.getD "")

/-- Whether the pattern list occurs at the head of the second list. -/
def matchesAt : List Char → List Char → Bool
  | [], _ => true
  | _ :: _, [] => false
  | p :: ps, c :: cs => p == c && matchesAt ps cs

/-- Whether the pattern occurs somewhere in the list (JavaScript
`String.prototype.includes`). -/
def hasSubList (p : List Char) : List Char → Bool
  | [] => matchesAt p []
  | c :: cs => matchesAt p (c :: cs) || hasSubList p cs

/-- Substring test on strings, modelling `s.includes(pat)`. -/
def strHasSub (s pat : String) : Bool :=
  hasSubList pat.data s.data

/-- Lower-casing, modelling `s.toLowerCase()`. -/
def strLower (s : String) : String :=
  ⟨s.data.map Char.toLower⟩

/-- JavaScript `Array.prototype.join(sep)`: empty array gives the empty
string, no trailing separator. -/
def joinSep (sep : String) : List String → String
  | [] => ""
  | [x] => x
  | x :: y :: xs => x ++ sep ++ joinSep sep (y :: xs)

/-- Decimal rendering of a natural number, character list form (how a
JavaScript number interpolates into a template literal).  The first
argument is structural fuel: any amount at least the digit count gives
the full rendering, and `jsNum` passes `n + 1`, which always suffices. -/
def natReprAux : Nat → Nat → List Char
  | 0, _ => []
  | fuel + 1, n =>
    if n < 10 then [Char.ofNat (48 + n)]
    else natReprAux fuel (n / 10) ++ [Char.ofNat (48 + n % 10)]

/-- Decimal rendering of a natural number as a string. -/
def jsNum (n : Nat) : String :=
  ⟨natReprAux (n + 1) n⟩

/-- JavaScript `s.slice(0, n)`: the first `n` characters of the string. -/
def jsSlice (s : String) (n : Nat) : String :=
  ⟨s.data.take n⟩

/-- Truthiness test `!text.trim()`: the trimmed text is empty exactly when
every character of the text is whitespace (an empty body included). -/
def jsBlank (s : String) : Bool :=
  s.data.all (fun c => c.isWhitespace)

/-- Number of occurrences of a character in a string. -/
def countCh (c : Char) (s : String) : Nat :=
  s.data.count c

/-! ### Resource fetcher (`fetchJson`, `src/app.js` lines 1-13) -/

/-- The parts of a host `fetch` response that `fetchJson` consults:
`r.ok`, `r.status`, the `content-type` header (absent modelled by `none`),
and the body text. -/
structure Response where
  ok : Bool
  status : Nat
  contentType : Option String
  body : String

/-- The errors `fetchJson` can throw.  The first three are the `Error`
values built at its three `throw` sites; `syntaxErr` is the raw
`SyntaxError` escaping from the unguarded `JSON.parse(text)` on the
JSON-typed path (line 12), carrying the host's message. -/
inductive FetchErr where
  | httpErr (status : Nat) (path : String)
  | emptyErr (path : String)
  | notJsonErr (path : String) (ct : String) (head : String)
  | syntaxErr (msg : String)
deriving DecidableEq, Repr

/-- The string the orchestrator's `String(err)` produces for each error
(`String` of an `Error e` is `"Error: " ++ e.message`; a `SyntaxError`
already stringifies with its own prefix, kept inside `msg`). -/
def FetchErr.display : FetchErr → String
  | .httpErr s p => "Error: HTTP " ++ jsNum s ++ " " ++ p
  | .emptyErr p => "Error: EMPTY " ++ p
  | .notJsonErr p ct h => "Error: NOT_JSON " ++ p ++ " ct=" ++ ct ++ " head=" ++ h
  | .syntaxErr m => m

/-- The resource fetcher.  `parse` models the host's `JSON.parse`: a
successful parse yields the structured value, a failing one the
`SyntaxError` message it would throw with.  Following the source: a
non-ok status throws `HTTP`, a whitespace-only body throws `EMPTY`, and
the declared content type selects between the guarded parse (non-JSON
type, failure wrapped as `NOT_JSON` with the first 120 characters of the
body) and the unguarded parse (JSON type, failure escaping raw). -/
def fetchJson {α : Type} (parse : String → Except String α) (path : String)
    (r : Response) : Except FetchErr α :=
  if !r.ok then .error (.httpErr r.status path)
  else
    let ct := strLower (r.contentType.getD "")
    let text := r.body
    if jsBlank text then .error (.emptyErr path)
    else if !(strHasSub ct "json") then
      match parse text with
      | .ok v => .ok v
      | .error _ => .error (.notJsonErr path ct (jsSlice text 120))
    else
      match parse text with
      | .ok v => .ok v
      | .error m => .error (.syntaxErr m)

/-! ### Data model (section 3 of the page's data contract) -/

/-- One reference of a change entry: `{url}` with `url` possibly absent. -/
structure RefEntry where
  url : Option String
deriving DecidableEq, Repr

/-- One detected change, all fields optional strings, plus its refs. -/
structure ChangeEntry where
  code : Option String
  title : Option String
  noticeNo : Option String
  announceDate : Option String
  effectiveDate : Option String
  reason : Option String
  refs : Option (List RefEntry)
deriving DecidableEq, Repr

/-- One diagnostic error entry (the source's field `where` is kept under
its guillemet-quoted name). -/
structure ErrorEntry where
  code : Option String
  title : Option String
  «where» : Option String
  kind : Option String
  status : Option String
  contentType : Option String
  head : Option String
deriving DecidableEq, Repr

/-- One inventory item of a standards list. -/
structure InventoryItem where
  code : Option String
  title : Option String
  query : Option String
deriving DecidableEq, Repr

/-- The `meta` object of a run record. -/
structure MetaInfo where
  mock : Bool
deriving DecidableEq, Repr

/-- One run record of the run-log resource. -/
structure RunRecord where
  date : Option String
  result : Option String
  summary : Option String
  meta : Option MetaInfo
  changes : Option (List ChangeEntry)
  errors : Option (List ErrorEntry)
deriving DecidableEq, Repr

/-- Top-level shape of the run-log resource. -/
structure RunLogData where
  records : Option (List RunRecord)
deriving DecidableEq, Repr

/-- Top-level shape of an inventory resource. -/
structure InvData where
  items : Option (List InventoryItem)
deriving DecidableEq, Repr

/-- Truthiness of `rec.meta && rec.meta.mock` (`src/app.js` lines 59 and
119): false when `meta` is absent. -/
def jsMock (rec : RunRecord) : Bool :=
  (rec.meta.map MetaInfo.mock).getD false

/-- Template interpolation `${v}` of a possibly-undefined value: an absent
value renders as the text `undefined`. -/
def jsVal (o : Option String) : String :=
  o.getD "undefined"

/-! ### Status renderer (`renderLog`, `src/app.js` lines 24-88) -/

/-- The reference link of one ref (`x.url ? <a ...> : ''`, line 36): a
link when `url` is truthy (present and non-empty), nothing otherwise. -/
def refLink (x : RefEntry) : String :=
  if x.url.getD "" = "" then ""
  else "<a href=\"" ++ esc x.url ++ "\" target=\"_blank\" rel=\"noreferrer\">원문</a>"

/-- The refs cell of a change row: each ref rendered, joined by a space. -/
def refsCell (c : ChangeEntry) : String :=
  joinSep " " ((c.refs.getD []).map refLink)

/-- One row of the changes table (lines 28-38).  The `||''` defaults of
the source are absorbed by `esc`, which already maps an absent value to
the empty string. -/
def changeRow (c : ChangeEntry) : String :=
  "\n    <tr>\n      <td>" ++ esc c.code ++
  "</td>\n      <td>" ++ esc c.title ++
  "</td>\n      <td>" ++ esc c.noticeNo ++
  "</td>\n      <td>" ++ esc c.announceDate ++
  "</td>\n      <td>" ++ esc c.effectiveDate ++
  "</td>\n      <td>" ++ esc c.reason ++
  "</td>\n      <td>" ++ refsCell c ++ "</td>\n    </tr>\n  "

/-- The head cell of an error row (line 48): hover title holds the full
escaped head, the visible text is the first 60 characters of the raw head
escaped afterwards, with an ellipsis exactly when the raw head is longer
than 60 characters. -/
def errHeadCell (h : String) : String :=
  "<td title=\"" ++ escStr h ++ "\">" ++ escStr (jsSlice h 60) ++
  (if h.length > 60 then "…" else "") ++ "</td>"

/-- One row of the errors table (lines 40-50). -/
def errRow (e : ErrorEntry) : String :=
  "\n    <tr>\n      <td>" ++ esc e.code ++
  "</td>\n      <td>" ++ esc e.title ++
  "</td>\n      <td>" ++ esc e.«where» ++
  "</td>\n      <td>" ++ esc e.kind ++
  "</td>\n      <td>" ++ esc e.status ++
  "</td>\n      <td>" ++ esc e.contentType ++
  "</td>\n      " ++ errHeadCell (e.head.getD "") ++ "\n    </tr>\n  "

/-- The changes `<details>` section (lines 63-73): the `open` attribute
and the table are present exactly when the list is nonempty, otherwise a
placeholder under a collapsed section. -/
def changesSection (changes : List ChangeEntry) : String :=
  "<details style=\"margin-top:10px\" " ++
  (if changes.length != 0 then "open" else "") ++
  ">\n        <summary>변경 감지 상세</summary>\n        " ++
  (if changes.length != 0 then
    "\n          <table>\n            <thead><tr>\n              <th>코드</th><th>제명</th><th>발령번호</th><th>발령일</th><th>시행일</th><th>사유</th><th>원문</th>\n            </tr></thead>\n            <tbody>" ++
    joinSep "" (changes.map changeRow) ++
    "</tbody>\n          </table>\n        "
  else "<div class=\"small\" style=\"margin-top:6px\">변경 없음</div>") ++
  "\n      </details>"

/-- The errors `<details>` section (lines 75-85), same shape rule driven
by the errors list. -/
def errorsSection (errors : List ErrorEntry) : String :=
  "<details style=\"margin-top:10px\" " ++
  (if errors.length != 0 then "open" else "") ++
  ">\n        <summary>오류/진단</summary>\n        " ++
  (if errors.length != 0 then
    "\n          <table>\n            <thead><tr>\n              <th>코드</th><th>제명</th><th>구간</th><th>종류</th><th>HTTP</th><th>Content-Type</th><th>HEAD</th>\n            </tr></thead>\n            <tbody>" ++
    joinSep "" (errors.map errRow) ++
    "</tbody>\n          </table>\n        "
  else "<div class=\"small\" style=\"margin-top:6px\">오류 없음</div>") ++
  "\n      </details>"

/-- The status renderer (lines 24-88): pills, summary line and the two
collapsible sections. -/
def renderLog (rec : RunRecord) : String :=
  let changes := rec.changes.getD []
  let errors := rec.errors.getD []
  "\n    <div style=\"margin-top:10px\">\n      <div class=\"row\">\n        <span class=\"pill\">" ++
  esc rec.date ++
  "</span>\n        <span class=\"pill\">" ++ esc rec.result ++
  "</span>\n        <span class=\"pill\">changes " ++ jsNum changes.length ++
  "</span>\n        <span class=\"pill\">errors " ++ jsNum errors.length ++
  "</span>\n        <span class=\"pill\">mock " ++
  (if jsMock rec then "true" else "false") ++
  "</span>\n      </div>\n      <div class=\"small\" style=\"margin-top:6px\">" ++
  esc rec.summary ++ "</div>\n\n      " ++
  changesSection changes ++ "\n\n      " ++
  errorsSection errors ++ "\n    </div>\n  "

/-! ### List renderer (`renderList`, `src/app.js` lines 90-100) -/

/-- One row of an inventory table (line 96). -/
def invRow (it : InventoryItem) : String :=
  "<tr><td>" ++ esc it.code ++ "</td><td>" ++ esc it.title ++
  "</td><td class=\"mono\">" ++ esc it.query ++ "</td></tr>"

/-- The list renderer: `!items || !items.length` selects the placeholder,
otherwise a table with one row per item. -/
def renderList (items : Option (List InventoryItem)) : String :=
  let its := items.getD []
  if its.length = 0 then "<div class=\"small\">항목 없음</div>"
  else
    "\n    <table>\n      <thead><tr><th>코드</th><th>제명</th><th>검색어</th></tr></thead>\n      <tbody>\n        " ++
    joinSep "" (its.map invRow) ++
    "\n      </tbody>\n    </table>\n  "

/-! ### Orchestrator (the async IIFE, `src/app.js` lines 102-149) -/

/-- The three classes `pill` toggles (`ok`, `warn`, `bad`); the spec's
neutral / attention / critical presentation states. -/
inductive PillClass where
  | ok
  | warn
  | bad
deriving DecidableEq, Repr

/-- The page surface the orchestrator writes: class and text of the four
pills, the status line, and the three HTML containers (`none` models a
container the load has not written). -/
structure PageState where
  runPillClass : Option PillClass
  runPillText : String
  modePillClass : Option PillClass
  modePillText : String
  changesPillClass : Option PillClass
  changesPillText : String
  errorsPillClass : Option PillClass
  errorsPillText : String
  statusText : String
  logHtml : Option String
  nfpcHtml : Option String
  nftcHtml : Option String
deriving DecidableEq, Repr

/-- The catch handler (lines 143-148): run pill turns `bad` with the text
`로딩 실패`, the status line shows the stringified error; nothing else is
touched. -/
def catchState (st : PageState) (e : FetchErr) : PageState :=
  { st with runPillClass := some PillClass.bad,
            runPillText := "로딩 실패",
            statusText := e.display }

/-- The no-records branch (lines 113-116): run pill turns `warn` with the
text `데이터 없음` and an explanatory status line. -/
def noRecordsState (st : PageState) : PageState :=
  { st with runPillClass := some PillClass.warn,
            runPillText := "데이터 없음",
            statusText := "data_test.json에 records가 없습니다. Actions(Test Check)를 1회 실행하세요." }

/-- The record branch (lines 117-134): run pill text, the three status
pills, the summary as status text, and the rendered log.  The run pill's
class is not touched in this branch. -/
def renderRecordState (st : PageState) (rec : RunRecord) : PageState :=
  let mock := jsMock rec
  let c := (rec.changes.getD []).length
  let e := (rec.errors.getD []).length
  { st with
    runPillText := "최근 실행: " ++ jsVal rec.date,
    modePillText := if mock then "MODE: MOCK" else "MODE: LIVE",
    modePillClass := some (if mock then PillClass.warn else PillClass.ok),
    changesPillText := "CHANGES: " ++ jsNum c,
    errorsPillText := "ERRORS: " ++ jsNum e,
    changesPillClass := some (if c != 0 then PillClass.warn else PillClass.ok),
    errorsPillClass := some (if e != 0 then PillClass.bad else PillClass.ok),
    statusText := rec.summary.getD "",
    logHtml := some (renderLog rec) }

/-- The first record, modelling
`(data.records && data.records[0]) ? data.records[0] : null`. -/
def firstRecord (d : RunLogData) : Option RunRecord :=
  match d.records with
  | some (r :: _) => some r
  | _ => none

/-- The run-log step of the load: record branch or no-records branch. -/
def step1 (st : PageState) (d : RunLogData) : PageState :=
  match firstRecord d with
  | none => noRecordsState st
  | some rec => renderRecordState st rec

/-- The whole load (lines 102-149): the run-log fetch, the two inventory
fetches, the two list renders, under one try/catch.  Each `Except`
argument is the outcome of the corresponding awaited `fetchJson` call;
the first thrown error reaches the catch handler and the rest of the
sequence is skipped. -/
def mainLoad (st : PageState) (r1 : Except FetchErr RunLogData)
    (r2 r3 : Except FetchErr InvData) : PageState :=
  match r1 with
  | .error e => catchState st e
  | .ok d =>
    let st1 := step1 st d
    match r2 with
    | .error e => catchState st1 e
    | .ok nfpc =>
      match r3 with
      | .error e => catchState st1 e
      | .ok nftc =>
        { st1 with nfpcHtml := some (renderList nfpc.items),
                   nftcHtml := some (renderList nftc.items) }

/-! ### Auxiliary definitions for the verification -/

/-- Entity check: one of the five escape bodies occurs at the head. -/
def entityAt (rest : List Char) : Bool :=
  matchesAt "amp;".data rest || matchesAt "lt;".data rest ||
  matchesAt "gt;".data rest || matchesAt "quot;".data rest ||
  matchesAt "#39;".data rest

/-- Escaped-form invariant over a character list: no raw `<`, `>`, `"`,
`'` anywhere, and every `&` opens one of the five escape entities. -/
def escOkList : List Char → Bool
  | [] => true
  | c :: rest =>
    (if c == '&' then entityAt rest
     else !(c == '<' || c == '>' || c == '"' || c == '\'')) && escOkList rest

/-- Escaped-form invariant on a string. -/
def escSafe (s : String) : Bool :=
  escOkList s.data

/-- Number of refs of a change entry with a truthy (present, non-empty)
`url` — the refs that render as links. -/
def linkedRefs (rs : List RefEntry) : Nat :=
  rs.countP (fun x => x.url.getD "" != "")

/-- A parse function that rejects every body, modelling `JSON.parse` on a
payload that is not valid JSON (the thrown `SyntaxError`, stringified). -/
def parseRejects : String → Except String Unit :=
  fun _ => Except.error "SyntaxError: Unexpected token"

/-- A 150-character body (longer than the 120-character diagnostic cut). -/
def longBody : String :=
  ⟨List.replicate 150 'a'⟩

/-- A successful response with a mislabelled (non-JSON) content type and a
long undecodable body. -/
def witnessResp : Response :=
  { ok := true, status := 200, contentType := some "application/octet-stream",
    body := longBody }

/-- A successful response whose declared content type is JSON and whose
body is not valid JSON. -/
def cexResp : Response :=
  { ok := true, status := 200, contentType := some "application/json",
    body := "hello" }

/-- A page surface before the load writes anything. -/
def blankState : PageState :=
  { runPillClass := none, runPillText := "", modePillClass := none, modePillText := "",
    changesPillClass := none, changesPillText := "", errorsPillClass := none,
    errorsPillText := "", statusText := "", logHtml := none, nfpcHtml := none,
    nftcHtml := none }

/-- The change entry with every optional string field defaulted to the
present empty string (and ref urls likewise). -/
def chDefaulted (c : ChangeEntry) : ChangeEntry :=
  ⟨some (c.code.getD ""), some (c.title.getD ""), some (c.noticeNo.getD ""),
   some (c.announceDate.getD ""), some (c.effectiveDate.getD ""),
   some (c.reason.getD ""),
   some ((c.refs.getD []).map (fun x => RefEntry.mk (some (x.url.getD ""))))⟩

/-- The error entry with every optional string field defaulted to the
present empty string. -/
def erDefaulted (e : ErrorEntry) : ErrorEntry :=
  ⟨some (e.code.getD ""), some (e.title.getD ""), some (e.«where».getD ""),
   some (e.kind.getD ""), some (e.status.getD ""), some (e.contentType.getD ""),
   some (e.head.getD "")⟩

/-- The inventory item with every optional string field defaulted to the
present empty string. -/
def itDefaulted (it : InventoryItem) : InventoryItem :=
  ⟨some (it.code.getD ""), some (it.title.getD ""), some (it.query.getD "")⟩

/-! ### Supporting lemmas -/






lemma escL_append (a b : List Char) : escL (a ++ b) = escL a ++ escL b := by
  induction a with
  | nil => rfl
  | cons c cs ih => simp [escL, ih]

lemma escOk_escL (l : List Char) : escOkList (escL l) = true := by
  induction l with
  | nil => rfl
  | cons c cs ih =>
    show escOkList (escCharL c ++ escL cs) = true
    unfold escCharL
    by_cases h1 : c == '&'
    · simp only [h1, if_true]
      simp [escOkList, entityAt, matchesAt, ih]
    · by_cases h2 : c == '<'
      · simp only [h1, h2, if_false, if_true]
        simp [escOkList, entityAt, matchesAt, ih]
      · by_cases h3 : c == '>'
        · simp only [h1, h2, h3, if_false, if_true]
          simp [escOkList, entityAt, matchesAt, ih]
        · by_cases h4 : c == '"'
          · simp only [h1, h2, h3, h4, if_false, if_true]
            simp [escOkList, entityAt, matchesAt, ih]
          · by_cases h5 : c == '\''
            · simp only [h1, h2, h3, h4, h5, if_false, if_true]
              simp [escOkList, entityAt, matchesAt, ih]
            · simp only [h1, h2, h3, h4, h5, if_false]
              simp [escOkList, entityAt, matchesAt, ih, h1, h2, h3, h4, h5]

lemma escSafe_escStr (s : String) : escSafe (escStr s) = true :=
  escOk_escL s.data

lemma countCh_append (c : Char) (a b : String) :
    countCh c (a ++ b) = countCh c a + countCh c b := by
  simp [countCh, String.data_append, List.count_append]

lemma count_lt_escCharL (c : Char) : List.count '<' (escCharL c) = 0 := by
  unfold escCharL
  by_cases h1 : c == '&'
  · simp [h1]
  · by_cases h2 : c == '<'
    · simp [h1, h2]
    · by_cases h3 : c == '>'
      · simp [h1, h2, h3]
      · by_cases h4 : c == '"'
        · simp [h1, h2, h3, h4]
        · by_cases h5 : c == '\''
          · simp [h1, h2, h3, h4, h5]
          · simp [h1, h2, h3, h4, h5, List.count_cons]

lemma count_lt_escL (l : List Char) : List.count '<' (escL l) = 0 := by
  induction l with
  | nil => rfl
  | cons c cs ih =>
    show List.count '<' (escCharL c ++ escL cs) = 0
    rw [List.count_append, count_lt_escCharL, ih]

lemma countCh_lt_escStr (s : String) : countCh '<' (escStr s) = 0 :=
  count_lt_escL s.data

lemma countCh_lt_esc (o : Option String) : countCh '<' (esc o) = 0 :=
  countCh_lt_escStr _

lemma mem_natReprAux : ∀ (fuel n : Nat) (c : Char), c ∈ natReprAux fuel n →
    ∃ k, k < 10 ∧ c = Char.ofNat (48 + k) := by
  intro fuel
  induction fuel with
  | zero => simp [natReprAux]
  | succ f ih =>
    intro n c hc
    rw [natReprAux] at hc
    split at hc
    · next h =>
      simp at hc
      exact ⟨n, h, hc⟩
    · next h =>
      rw [List.mem_append] at hc
      rcases hc with hc | hc
      · exact ih (n / 10) c hc
      · simp at hc
        exact ⟨n % 10, Nat.mod_lt _ (by omega), hc⟩

lemma countCh_lt_jsNum (n : Nat) : countCh '<' (jsNum n) = 0 := by
  refine List.count_eq_zero.mpr ?_
  intro hmem
  obtain ⟨k, hk, he⟩ := mem_natReprAux (n + 1) n '<' hmem
  interval_cases k <;> exact absurd he (by decide)

lemma countCh_joinSep (c : Char) (sep : String) (hsep : countCh c sep = 0)
    (l : List String) :
    countCh c (joinSep sep l) = (l.map (countCh c)).sum := by
  induction l with
  | nil => simp [joinSep, countCh]
  | cons x xs ih =>
    cases xs with
    | nil => simp [joinSep]
    | cons y ys =>
      rw [joinSep, countCh_append, countCh_append, hsep, ih]
      simp

lemma countCh_lt_refLink (x : RefEntry) :
    countCh '<' (refLink x) = if x.url.getD "" = "" then 0 else 2 := by
  unfold refLink
  by_cases h : x.url.getD "" = ""
  · simp [h, countCh]
  · rw [if_neg h, if_neg h, countCh_append, countCh_append, countCh_lt_esc]
    have h1 : countCh '<' "<a href=\"" = 1 := by decide
    have h2 : countCh '<' "\" target=\"_blank\" rel=\"noreferrer\">원문</a>" = 1 := by decide
    omega

lemma countCh_lt_refsCell (c : ChangeEntry) :
    countCh '<' (refsCell c) = 2 * linkedRefs (c.refs.getD []) := by
  unfold refsCell linkedRefs
  rw [countCh_joinSep '<' " " (by decide)]
  rw [List.map_map]
  induction c.refs.getD [] with
  | nil => simp
  | cons x xs ih =>
    rw [List.map_cons, List.sum_cons, List.countP_cons, ih]
    simp only [Function.comp]
    rw [countCh_lt_refLink]
    by_cases h : x.url.getD "" = ""
    · simp [h]
    · simp only [h, if_false]
      simp [h]
      omega

lemma countCh_lt_changeRow (c : ChangeEntry) :
    countCh '<' (changeRow c) = 16 + 2 * linkedRefs (c.refs.getD []) := by
  have hb : countCh '<' (changeRow ⟨none, none, none, none, none, none, none⟩) = 16 := by
    decide
  unfold changeRow at hb ⊢
  repeat rw [countCh_append] at hb
  repeat rw [countCh_append]
  rw [countCh_lt_refsCell] at hb ⊢
  simp only [countCh_lt_esc] at hb ⊢
  simp only [linkedRefs, Option.getD_none, List.countP_nil] at hb
  omega

lemma countCh_lt_errRow (e : ErrorEntry) : countCh '<' (errRow e) = 16 := by
  have hb : countCh '<' (errRow ⟨none, none, none, none, none, none, none⟩) = 16 := by
    decide
  have hdots : countCh '<' "…" = 0 := by decide
  have hnil : countCh '<' "" = 0 := by decide
  unfold errRow errHeadCell at hb ⊢
  repeat rw [countCh_append] at hb
  repeat rw [countCh_append]
  simp only [countCh_lt_esc, countCh_lt_escStr, apply_ite (countCh '<'), hdots, hnil,
    ite_self] at hb ⊢
  omega

lemma countCh_lt_invRow (it : InventoryItem) : countCh '<' (invRow it) = 8 := by
  have hb : countCh '<' (invRow ⟨none, none, none⟩) = 8 := by decide
  unfold invRow at hb ⊢
  repeat rw [countCh_append] at hb
  repeat rw [countCh_append]
  simp only [countCh_lt_esc] at hb ⊢
  omega

lemma sum_invRows (l : List InventoryItem) :
    ((l.map invRow).map (countCh '<')).sum = 8 * l.length := by
  induction l with
  | nil => simp
  | cons x xs ih =>
    rw [List.map_cons, List.map_cons, List.sum_cons, ih, countCh_lt_invRow]
    simp [Nat.mul_succ]
    omega

set_option maxRecDepth 8000 in
lemma countCh_lt_renderList (items : Option (List InventoryItem)) :
    countCh '<' (renderList items) =
      if items.getD [] = [] then 2 else 14 + 8 * (items.getD []).length := by
  by_cases h : items.getD [] = []
  · rw [if_pos h]
    have : renderList items = "<div class=\"small\">항목 없음</div>" := by
      simp [renderList, h]
    rw [this]
    decide
  · rw [if_neg h]
    have hb : countCh '<' (renderList (some [⟨none, none, none⟩])) = 22 := by decide
    simp only [renderList] at hb ⊢
    rw [if_neg (by simpa [List.length_eq_zero] using h)]
    repeat rw [countCh_append]
    rw [countCh_joinSep '<' "" (by decide), sum_invRows]
    simp only [Option.getD_some, List.length_cons, List.length_nil, if_neg] at hb
    norm_num at hb
    repeat rw [countCh_append] at hb
    rw [countCh_joinSep '<' "" (by decide)] at hb
    simp only [List.map_cons, List.map_nil, List.sum_cons, List.sum_nil,
      countCh_lt_invRow] at hb
    omega

lemma sum_changeRows (l : List ChangeEntry) :
    ((l.map changeRow).map (countCh '<')).sum =
      (l.map (fun c => 16 + 2 * linkedRefs (c.refs.getD []))).sum := by
  induction l with
  | nil => simp
  | cons x xs ih =>
    rw [List.map_cons, List.map_cons, List.sum_cons, List.map_cons, List.sum_cons, ih,
      countCh_lt_changeRow]

lemma sum_errRows (l : List ErrorEntry) :
    ((l.map errRow).map (countCh '<')).sum = 16 * l.length := by
  induction l with
  | nil => simp
  | cons x xs ih =>
    rw [List.map_cons, List.map_cons, List.sum_cons, ih, countCh_lt_errRow]
    simp [Nat.mul_succ]
    omega

set_option maxRecDepth 8000 in
lemma countCh_lt_changesSection (l : List ChangeEntry) :
    countCh '<' (changesSection l) =
      if l = [] then 6
      else 26 + (l.map (fun c => 16 + 2 * linkedRefs (c.refs.getD []))).sum := by
  by_cases h : l = []
  · rw [if_pos h, h]
    decide
  · rw [if_neg h]
    have hlen : (l.length != 0) = true := by simp [List.length_eq_zero, h]
    have hb : countCh '<'
        (changesSection [⟨none, none, none, none, none, none, none⟩]) = 42 := by
      decide
    unfold changesSection at hb ⊢
    rw [if_pos hlen, if_pos hlen]
    rw [if_pos (by decide), if_pos (by decide)] at hb
    repeat rw [countCh_append] at hb
    repeat rw [countCh_append]
    rw [countCh_joinSep '<' "" (by decide), sum_changeRows]
    rw [countCh_joinSep '<' "" (by decide)] at hb
    simp only [List.map_cons, List.map_nil, List.sum_cons, List.sum_nil,
      countCh_lt_changeRow, linkedRefs, Option.getD_none, List.countP_nil] at hb
    omega

set_option maxRecDepth 8000 in
lemma countCh_lt_errorsSection (l : List ErrorEntry) :
    countCh '<' (errorsSection l) = if l = [] then 6 else 26 + 16 * l.length := by
  by_cases h : l = []
  · rw [if_pos h, h]
    decide
  · rw [if_neg h]
    have hlen : (l.length != 0) = true := by simp [List.length_eq_zero, h]
    have hb : countCh '<'
        (errorsSection [⟨none, none, none, none, none, none, none⟩]) = 42 := by
      decide
    unfold errorsSection at hb ⊢
    rw [if_pos hlen, if_pos hlen]
    rw [if_pos (by decide), if_pos (by decide)] at hb
    repeat rw [countCh_append] at hb
    repeat rw [countCh_append]
    rw [countCh_joinSep '<' "" (by decide), sum_errRows]
    rw [countCh_joinSep '<' "" (by decide)] at hb
    simp only [List.map_cons, List.map_nil, List.sum_cons, List.sum_nil,
      countCh_lt_errRow] at hb
    omega

set_option maxRecDepth 8000 in
lemma countCh_lt_renderLog (rec : RunRecord) :
    countCh '<' (renderLog rec) =
      16 + (if rec.changes.getD [] = [] then 6
            else 26 + ((rec.changes.getD []).map
              (fun c => 16 + 2 * linkedRefs (c.refs.getD []))).sum)
         + (if rec.errors.getD [] = [] then 6
            else 26 + 16 * (rec.errors.getD []).length) := by
  have hb : countCh '<' (renderLog ⟨none, none, none, none, none, none⟩) = 28 := by decide
  have htf : ∀ (b : Bool), countCh '<' (if b then "true" else "false") = 0 := by
    intro b
    cases b <;> decide
  simp only [renderLog] at hb ⊢
  repeat rw [countCh_append] at hb
  repeat rw [countCh_append]
  rw [countCh_lt_changesSection, countCh_lt_errorsSection] at hb ⊢
  simp only [countCh_lt_esc, countCh_lt_jsNum, htf, Option.getD_none] at hb ⊢
  norm_num at hb
  omega


/-! ### The claims -/






/-- C1 (amended): when the declared content type does not contain `json`,
a successful response with a non-blank body that fails to decode makes
`fetchJson` fail with the `NOT_JSON` error carrying the path, the
lowercased declared content type and exactly the first 120 characters of
the raw body (the slice is the literal 120-character prefix, in full when
the body is at least that long). -/
theorem C1_notJson_diagnostics : ∀ {α : Type}
    (parse : String → Except String α) (path : String) (r : Response) (m : String),
    r.ok = true →
    jsBlank r.body = false →
    strHasSub (strLower (r.contentType.getD "")) "json" = false →
    parse r.body = Except.error m →
    fetchJson parse path r =
      Except.error (FetchErr.notJsonErr path (strLower (r.contentType.getD ""))
        (jsSlice r.body 120))
    ∧ (jsSlice r.body 120).data = r.body.data.take 120
    ∧ (120 ≤ r.body.length → (jsSlice r.body 120).length = 120)
    ∧ jsSlice r.body 120 ++ (⟨r.body.data.drop 120⟩ : String) = r.body := by
  intro α parse path r m hok hblank hct hparse
  refine ⟨?_, rfl, ?_, ?_⟩
  · simp [fetchJson, hok, hblank, hct, hparse]
  · intro h
    show (r.body.data.take 120).length = 120
    rw [List.length_take]
    exact Nat.min_eq_left h
  · apply String.ext
    rw [String.data_append]
    exact List.take_append_drop 120 r.body.data

/-- C1 witness: the amended theorem applied to a concrete octet-stream
response with a 150-character body. -/
theorem C1_notJson_diagnostics_witness :
    (witnessResp.ok = true
      ∧ jsBlank witnessResp.body = false
      ∧ strHasSub (strLower (witnessResp.contentType.getD "")) "json" = false
      ∧ parseRejects witnessResp.body = Except.error "SyntaxError: Unexpected token")
    ∧ (fetchJson parseRejects "../data_test.json" witnessResp =
        Except.error (FetchErr.notJsonErr "../data_test.json"
          (strLower (witnessResp.contentType.getD "")) (jsSlice witnessResp.body 120))
      ∧ (jsSlice witnessResp.body 120).data = witnessResp.body.data.take 120
      ∧ (120 ≤ witnessResp.body.length → (jsSlice witnessResp.body 120).length = 120)
      ∧ jsSlice witnessResp.body 120 ++ (⟨witnessResp.body.data.drop 120⟩ : String) =
          witnessResp.body) :=
  ⟨⟨rfl, by decide, by decide, rfl⟩,
    C1_notJson_diagnostics parseRejects "../data_test.json" witnessResp
      "SyntaxError: Unexpected token" rfl (by decide) (by decide) rfl⟩

/-- C1 counterexample: with a content type that does declare JSON, the
decode failure does not produce the `NOT_JSON` error of the claim (the raw
`SyntaxError` escapes instead): the unguarded `JSON.parse` path of
`src/app.js` line 12 has no try/catch. -/
theorem C1_declared_json_cex :
    fetchJson parseRejects "../data_test.json" cexResp =
      Except.error (FetchErr.syntaxErr "SyntaxError: Unexpected token")
    ∧ fetchJson parseRejects "../data_test.json" cexResp ≠
        Except.error (FetchErr.notJsonErr "../data_test.json"
          (strLower (cexResp.contentType.getD "")) (jsSlice cexResp.body 120)) := by
  constructor
  · rfl
  · intro hcontra
    have h1 : fetchJson parseRejects "../data_test.json" cexResp =
        Except.error (FetchErr.syntaxErr "SyntaxError: Unexpected token") := rfl
    rw [h1] at hcontra
    simp at hcontra

/-- C8: a successful response whose body is empty or whitespace-only makes
`fetchJson` fail with the `EMPTY` error carrying the path, and that error
is distinguishable from both decode-failure errors. -/
theorem C8_blank_body_distinct : ∀ {α : Type}
    (parse : String → Except String α) (path : String) (r : Response),
    r.ok = true →
    jsBlank r.body = true →
    fetchJson parse path r = Except.error (FetchErr.emptyErr path)
    ∧ (∀ p q ct hd, FetchErr.emptyErr p ≠ FetchErr.notJsonErr q ct hd)
    ∧ (∀ p m, FetchErr.emptyErr p ≠ FetchErr.syntaxErr m) := by
  intro α parse path r hok hblank
  refine ⟨?_, ?_, ?_⟩
  · simp [fetchJson, hok, hblank]
  · intro p q ct hd
    simp
  · intro p m
    simp

/-- C8 witness: the theorem applied to a concrete empty-bodied response. -/
theorem C8_blank_body_distinct_witness :
    ((Response.mk true 200 none "").ok = true
      ∧ jsBlank (Response.mk true 200 none "").body = true)
    ∧ (fetchJson parseRejects "../standards_nfpc_test.json" (Response.mk true 200 none "") =
        Except.error (FetchErr.emptyErr "../standards_nfpc_test.json")
      ∧ (∀ p q ct hd, FetchErr.emptyErr p ≠ FetchErr.notJsonErr q ct hd)
      ∧ (∀ p m, FetchErr.emptyErr p ≠ FetchErr.syntaxErr m)) :=
  ⟨⟨rfl, by decide⟩,
    C8_blank_body_distinct parseRejects "../standards_nfpc_test.json"
      (Response.mk true 200 none "") rfl (by decide)⟩




/-- C3: an error thrown by any of the three fetches lands in the single
catch handler: the run pill turns `bad` with text `로딩 실패`, the status
text is the stringified error, output written before the failing call
(the rendered log) is kept, and the inventory containers are never
written in that load. -/
theorem C3_single_catch_failfast :
    ∀ (st : PageState) (e : FetchErr) (d : RunLogData) (n2 : InvData)
      (r2 r3 : Except FetchErr InvData),
    mainLoad st (Except.error e) r2 r3 = catchState st e
    ∧ mainLoad st (Except.ok d) (Except.error e) r3 = catchState (step1 st d) e
    ∧ mainLoad st (Except.ok d) (Except.ok n2) (Except.error e) = catchState (step1 st d) e
    ∧ (catchState (step1 st d) e).runPillClass = some PillClass.bad
    ∧ (catchState (step1 st d) e).runPillText = "로딩 실패"
    ∧ (catchState (step1 st d) e).statusText = e.display
    ∧ (catchState (step1 st d) e).logHtml = (step1 st d).logHtml
    ∧ (mainLoad st (Except.ok d) (Except.ok n2) (Except.error e)).nfpcHtml = st.nfpcHtml
    ∧ (mainLoad st (Except.ok d) (Except.ok n2) (Except.error e)).nftcHtml = st.nftcHtml := by
  intro st e d n2 r2 r3
  refine ⟨rfl, rfl, rfl, rfl, rfl, rfl, rfl, ?_, ?_⟩
  · show (catchState (step1 st d) e).nfpcHtml = st.nfpcHtml
    cases hfr : firstRecord d <;>
      simp [catchState, step1, hfr, noRecordsState, renderRecordState]
  · show (catchState (step1 st d) e).nftcHtml = st.nftcHtml
    cases hfr : firstRecord d <;>
      simp [catchState, step1, hfr, noRecordsState, renderRecordState]

/-- C4: a successful run-log fetch with zero records (absent or empty)
puts the run pill into the warning state `데이터 없음` with an explanatory
status text — distinct from the failure class `bad` — and both inventory
resources are still fetched and rendered. -/
theorem C4_no_records_soft_state :
    ∀ (st : PageState) (d : RunLogData) (n2 n3 : InvData),
    d.records = none ∨ d.records = some [] →
    mainLoad st (Except.ok d) (Except.ok n2) (Except.ok n3) =
      { noRecordsState st with nfpcHtml := some (renderList n2.items),
                               nftcHtml := some (renderList n3.items) }
    ∧ (mainLoad st (Except.ok d) (Except.ok n2) (Except.ok n3)).runPillClass =
        some PillClass.warn
    ∧ (mainLoad st (Except.ok d) (Except.ok n2) (Except.ok n3)).runPillText = "데이터 없음"
    ∧ (mainLoad st (Except.ok d) (Except.ok n2) (Except.ok n3)).statusText =
        "data_test.json에 records가 없습니다. Actions(Test Check)를 1회 실행하세요."
    ∧ (mainLoad st (Except.ok d) (Except.ok n2) (Except.ok n3)).nfpcHtml =
        some (renderList n2.items)
    ∧ (mainLoad st (Except.ok d) (Except.ok n2) (Except.ok n3)).nftcHtml =
        some (renderList n3.items)
    ∧ PillClass.warn ≠ PillClass.bad := by
  intro st d n2 n3 hrec
  have hfr : firstRecord d = none := by
    rcases hrec with h | h <;> simp [firstRecord, h]
  refine ⟨?_, ?_, ?_, ?_, ?_, ?_, by simp⟩ <;>
    simp [mainLoad, step1, hfr, noRecordsState]

/-- C4 witness: the theorem applied to a run-log resource with an empty
records array and two absent-items inventories, from the blank surface. -/
theorem C4_no_records_soft_state_witness :
    ((RunLogData.mk (some [])).records = none
      ∨ (RunLogData.mk (some [])).records = some [])
    ∧ (mainLoad blankState (Except.ok (RunLogData.mk (some [])))
        (Except.ok (InvData.mk none)) (Except.ok (InvData.mk none))).runPillClass =
        some PillClass.warn :=
  ⟨Or.inr rfl,
    (C4_no_records_soft_state blankState (RunLogData.mk (some []))
      (InvData.mk none) (InvData.mk none) (Or.inr rfl)).2.1⟩

/-- C7: with a record present, the three status pills are computed
independently: mode is mock exactly when `meta.mock` is truthy (`warn`
when mock, `ok` when live), the changes pill is `ok` at zero changes and
`warn` otherwise, the errors pill is `ok` at zero errors and `bad`
otherwise; each pill ignores the fields feeding the other two. -/
theorem C7_pills_independent :
    ∀ (st : PageState) (rec : RunRecord) (rest : List RunRecord) (n2 n3 : InvData),
    mainLoad st (Except.ok (RunLogData.mk (some (rec :: rest))))
        (Except.ok n2) (Except.ok n3) =
      { renderRecordState st rec with nfpcHtml := some (renderList n2.items),
                                      nftcHtml := some (renderList n3.items) }
    ∧ (renderRecordState st rec).modePillText =
        (if jsMock rec then "MODE: MOCK" else "MODE: LIVE")
    ∧ (renderRecordState st rec).modePillClass =
        some (if jsMock rec then PillClass.warn else PillClass.ok)
    ∧ jsMock rec = (rec.meta.map MetaInfo.mock).getD false
    ∧ (renderRecordState st rec).changesPillClass =
        some (if (rec.changes.getD []).length = 0 then PillClass.ok else PillClass.warn)
    ∧ (renderRecordState st rec).errorsPillClass =
        some (if (rec.errors.getD []).length = 0 then PillClass.ok else PillClass.bad)
    ∧ (renderRecordState st rec).changesPillText =
        "CHANGES: " ++ jsNum (rec.changes.getD []).length
    ∧ (renderRecordState st rec).errorsPillText =
        "ERRORS: " ++ jsNum (rec.errors.getD []).length
    ∧ (∀ m ch er,
        (renderRecordState st { rec with changes := ch, errors := er }).modePillClass =
          (renderRecordState st rec).modePillClass
        ∧ (renderRecordState st { rec with meta := m, errors := er }).changesPillClass =
          (renderRecordState st rec).changesPillClass
        ∧ (renderRecordState st { rec with meta := m, changes := ch }).errorsPillClass =
          (renderRecordState st rec).errorsPillClass) := by
  intro st rec rest n2 n3
  refine ⟨rfl, rfl, rfl, rfl, ?_, ?_, rfl, rfl, ?_⟩
  · by_cases h : (rec.changes.getD []).length = 0 <;>
      simp [renderRecordState, h]
  · by_cases h : (rec.errors.getD []).length = 0 <;>
      simp [renderRecordState, h]
  · intro m ch er
    refine ⟨rfl, rfl, rfl⟩

/-- C9: a record with no `meta` object at all renders exactly like one
with `meta.mock` explicitly false: the mode pill shows `MODE: LIVE` in the
`ok` class, and the rendered log is identical — absent `meta` is never an
error and never mock. -/
theorem C9_absent_meta_is_live :
    ∀ (st : PageState) (rec : RunRecord), rec.meta = none →
    renderRecordState st rec = renderRecordState st { rec with meta := some ⟨false⟩ }
    ∧ (renderRecordState st rec).modePillText = "MODE: LIVE"
    ∧ (renderRecordState st rec).modePillClass = some PillClass.ok
    ∧ renderLog rec = renderLog { rec with meta := some ⟨false⟩ } := by
  intro st rec h
  have hm : jsMock rec = false := by simp [jsMock, h]
  have hm2 : jsMock { rec with meta := some ⟨false⟩ } = false := by simp [jsMock]
  have hlog : renderLog rec = renderLog { rec with meta := some ⟨false⟩ } := by
    simp [renderLog, hm, hm2]
  refine ⟨?_, ?_, ?_, hlog⟩
  · simp [renderRecordState, hm, hm2, hlog]
  · simp [renderRecordState, hm]
  · simp [renderRecordState, hm]

/-- C9 witness: the theorem applied to a concrete record with `meta`
absent. -/
theorem C9_absent_meta_is_live_witness :
    (RunRecord.mk none none none none none none).meta = none
    ∧ (renderRecordState blankState
        (RunRecord.mk none none none none none none)).modePillText = "MODE: LIVE" :=
  ⟨rfl,
    (C9_absent_meta_is_live blankState
      (RunRecord.mk none none none none none none) rfl).2.1⟩



set_option maxRecDepth 8000 in
lemma changesSection_get33 (l : List ChangeEntry) (h : l ≠ []) :
    (changesSection l).data.get? 33 = some 'o' := by
  have hlen : (l.length != 0) = true := by simp [List.length_eq_zero, h]
  unfold changesSection
  rw [if_pos hlen, if_pos hlen]
  simp only [String.data_append, List.append_assoc]
  rw [List.get?_append_right (by decide)]
  have hl : ("<details style=\"margin-top:10px\" ".data).length = 33 := by decide
  rw [hl, Nat.sub_self]
  rw [List.get?_append (by decide)]
  decide

set_option maxRecDepth 8000 in
lemma errorsSection_get33 (l : List ErrorEntry) (h : l ≠ []) :
    (errorsSection l).data.get? 33 = some 'o' := by
  have hlen : (l.length != 0) = true := by simp [List.length_eq_zero, h]
  unfold errorsSection
  rw [if_pos hlen, if_pos hlen]
  simp only [String.data_append, List.append_assoc]
  rw [List.get?_append_right (by decide)]
  have hl : ("<details style=\"margin-top:10px\" ".data).length = 33 := by decide
  rw [hl, Nat.sub_self]
  rw [List.get?_append (by decide)]
  decide

set_option maxRecDepth 8000 in
lemma changesSection_ne_collapsed (l : List ChangeEntry) (h : l ≠ []) :
    changesSection l ≠ changesSection [] := by
  intro heq
  have h1 := changesSection_get33 l h
  have h2 : (changesSection []).data.get? 33 = some '>' := by decide
  rw [heq] at h1
  have := h1.symm.trans h2
  simp at this

set_option maxRecDepth 8000 in
lemma errorsSection_ne_collapsed (l : List ErrorEntry) (h : l ≠ []) :
    errorsSection l ≠ errorsSection [] := by
  intro heq
  have h1 := errorsSection_get33 l h
  have h2 : (errorsSection []).data.get? 33 = some '>' := by decide
  rw [heq] at h1
  have := h1.symm.trans h2
  simp at this

set_option maxRecDepth 8000 in
/-- C5: the changes section collapses (no `open` attribute) onto a
placeholder with no table exactly when the record's changes are empty or
absent, and expands (`open` attribute, full table) exactly when nonempty;
the errors section follows the same rule independently, driven by the
errors list. -/
theorem C5_sections_collapse_iff_empty :
    ∀ (rec : RunRecord),
    (rec.changes.getD [] = [] →
      changesSection (rec.changes.getD []) =
        "<details style=\"margin-top:10px\" >\n        <summary>변경 감지 상세</summary>\n        <div class=\"small\" style=\"margin-top:6px\">변경 없음</div>\n      </details>")
    ∧ (rec.changes.getD [] ≠ [] →
      changesSection (rec.changes.getD []) =
        "<details style=\"margin-top:10px\" " ++ "open" ++
        ">\n        <summary>변경 감지 상세</summary>\n        " ++
        ("\n          <table>\n            <thead><tr>\n              <th>코드</th><th>제명</th><th>발령번호</th><th>발령일</th><th>시행일</th><th>사유</th><th>원문</th>\n            </tr></thead>\n            <tbody>" ++
         joinSep "" ((rec.changes.getD []).map changeRow) ++
         "</tbody>\n          </table>\n        ") ++ "\n      </details>"
      ∧ changesSection (rec.changes.getD []) ≠ changesSection [])
    ∧ (rec.errors.getD [] = [] →
      errorsSection (rec.errors.getD []) =
        "<details style=\"margin-top:10px\" >\n        <summary>오류/진단</summary>\n        <div class=\"small\" style=\"margin-top:6px\">오류 없음</div>\n      </details>")
    ∧ (rec.errors.getD [] ≠ [] →
      errorsSection (rec.errors.getD []) =
        "<details style=\"margin-top:10px\" " ++ "open" ++
        ">\n        <summary>오류/진단</summary>\n        " ++
        ("\n          <table>\n            <thead><tr>\n              <th>코드</th><th>제명</th><th>구간</th><th>종류</th><th>HTTP</th><th>Content-Type</th><th>HEAD</th>\n            </tr></thead>\n            <tbody>" ++
         joinSep "" ((rec.errors.getD []).map errRow) ++
         "</tbody>\n          </table>\n        ") ++ "\n      </details>"
      ∧ errorsSection (rec.errors.getD []) ≠ errorsSection []) := by
  intro rec
  refine ⟨?_, ?_, ?_, ?_⟩
  · intro h
    rw [h]
    decide
  · intro h
    have hlen : ((rec.changes.getD []).length != 0) = true := by
      simp [List.length_eq_zero, h]
    refine ⟨?_, changesSection_ne_collapsed _ h⟩
    unfold changesSection
    rw [if_pos hlen, if_pos hlen]
  · intro h
    rw [h]
    decide
  · intro h
    have hlen : ((rec.errors.getD []).length != 0) = true := by
      simp [List.length_eq_zero, h]
    refine ⟨?_, errorsSection_ne_collapsed _ h⟩
    unfold errorsSection
    rw [if_pos hlen, if_pos hlen]

/-- C5 witness: the theorem applied to a record with one change and no
errors: changes section open and tabled, errors section collapsed. -/
theorem C5_sections_collapse_iff_empty_witness :
    ((RunRecord.mk none none none none
        (some [⟨none, none, none, none, none, none, none⟩]) none).changes.getD [] ≠ []
      ∧ changesSection ((RunRecord.mk none none none none
          (some [⟨none, none, none, none, none, none, none⟩]) none).changes.getD []) ≠
        changesSection [])
    ∧ ((RunRecord.mk none none none none
        (some [⟨none, none, none, none, none, none, none⟩]) none).errors.getD [] = []
      ∧ errorsSection ((RunRecord.mk none none none none
          (some [⟨none, none, none, none, none, none, none⟩]) none).errors.getD []) =
        "<details style=\"margin-top:10px\" >\n        <summary>오류/진단</summary>\n        <div class=\"small\" style=\"margin-top:6px\">오류 없음</div>\n      </details>") :=
  ⟨⟨by simp,
    ((C5_sections_collapse_iff_empty (RunRecord.mk none none none none
        (some [⟨none, none, none, none, none, none, none⟩]) none)).2.1 (by simp)).2⟩,
   ⟨rfl,
    (C5_sections_collapse_iff_empty (RunRecord.mk none none none none
        (some [⟨none, none, none, none, none, none, none⟩]) none)).2.2.1 rfl⟩⟩



/-- C6: the head cell shows the raw head truncated to its first 60
characters and escaped afterwards — no truncation or ellipsis at 60
characters or fewer, a trailing ellipsis exactly when the raw head is
longer — while the title attribute keeps the full escaped head, of which
the escaped visible text is the leading part. -/
theorem C6_head_truncation :
    ∀ (e : ErrorEntry),
    errRow e =
      "\n    <tr>\n      <td>" ++ esc e.code ++
      "</td>\n      <td>" ++ esc e.title ++
      "</td>\n      <td>" ++ esc e.«where» ++
      "</td>\n      <td>" ++ esc e.kind ++
      "</td>\n      <td>" ++ esc e.status ++
      "</td>\n      <td>" ++ esc e.contentType ++
      "</td>\n      " ++ errHeadCell (e.head.getD "") ++ "\n    </tr>\n  "
    ∧ ((e.head.getD "").length ≤ 60 →
        errHeadCell (e.head.getD "") =
          "<td title=\"" ++ escStr (e.head.getD "") ++ "\">" ++
          escStr (e.head.getD "") ++ "</td>")
    ∧ ((e.head.getD "").length > 60 →
        errHeadCell (e.head.getD "") =
          "<td title=\"" ++ escStr (e.head.getD "") ++ "\">" ++
          escStr (jsSlice (e.head.getD "") 60) ++ "…" ++ "</td>"
        ∧ (jsSlice (e.head.getD "") 60).length = 60
        ∧ escStr (e.head.getD "") =
            escStr (jsSlice (e.head.getD "") 60) ++
            escStr ⟨(e.head.getD "").data.drop 60⟩) := by
  intro e
  refine ⟨rfl, ?_, ?_⟩
  · intro h
    have hsl : jsSlice (e.head.getD "") 60 = e.head.getD "" := by
      apply String.ext
      exact List.take_of_length_le h
    unfold errHeadCell
    rw [if_neg (by omega), hsl, String.append_empty]
  · intro h
    refine ⟨?_, ?_, ?_⟩
    · unfold errHeadCell
      rw [if_pos h]
    · show (List.take 60 (e.head.getD "").data).length = 60
      have h2 : 60 < (e.head.getD "").data.length := h
      rw [List.length_take]
      exact Nat.min_eq_left (by omega)
    · apply String.ext
      show escL (e.head.getD "").data =
        escL (List.take 60 (e.head.getD "").data) ++
        escL (List.drop 60 (e.head.getD "").data)
      rw [← escL_append, List.take_append_drop]




set_option maxRecDepth 8000 in
/-- C10: `esc` is total over absent values — `null`/`undefined` input
gives the empty string — so a row over entries with absent optional
fields equals the row over the same entries with empty-string fields
(empty cells), and the text `undefined` never appears in rendered rows
of wholly absent entries. -/
theorem C10_absent_fields_render_empty :
    esc none = ""
    ∧ (∀ o : Option String, esc o = esc (some (o.getD "")))
    ∧ (∀ c : ChangeEntry, changeRow c = changeRow (chDefaulted c))
    ∧ (∀ e : ErrorEntry, errRow e = errRow (erDefaulted e))
    ∧ (∀ it : InventoryItem, invRow it = invRow (itDefaulted it))
    ∧ strHasSub (changeRow ⟨none, none, none, none, none, none, none⟩) "undefined" = false
    ∧ strHasSub (errRow ⟨none, none, none, none, none, none, none⟩) "undefined" = false
    ∧ strHasSub (renderList (some [⟨none, none, none⟩])) "undefined" = false := by
  refine ⟨rfl, fun o => rfl, ?_, fun e => rfl, fun it => rfl, by decide, by decide, by decide⟩
  intro c
  have hrefs : refsCell (chDefaulted c) = refsCell c := by
    show joinSep " "
        (((c.refs.getD []).map (fun x => RefEntry.mk (some (x.url.getD "")))).map refLink) =
      joinSep " " ((c.refs.getD []).map refLink)
    rw [List.map_map]
    congr 1
  simp only [changeRow]
  rw [hrefs]
  rfl



/-- C2: every value embedded by the renderers passes through `esc`, whose
output contains no raw `<`, `>`, `"`, `'` and in which every `&` opens
one of the five escape entities (`escSafe`); consequently the number of
raw markup-opening `<` characters in the output of `renderLog` and
`renderList` is a function of the data's shape alone (how many rows,
linked refs) and never of the contents of any string field — no data
path puts an unescaped special character into the markup. -/
theorem C2_rendered_fields_escaped :
    (∀ s : String, escSafe (escStr s) = true)
    ∧ (∀ o : Option String, escSafe (esc o) = true)
    ∧ (∀ rec : RunRecord,
        countCh '<' (renderLog rec) =
          16 + (if rec.changes.getD [] = [] then 6
                else 26 + ((rec.changes.getD []).map
                  (fun c => 16 + 2 * linkedRefs (c.refs.getD []))).sum)
             + (if rec.errors.getD [] = [] then 6
                else 26 + 16 * (rec.errors.getD []).length))
    ∧ (∀ items : Option (List InventoryItem),
        countCh '<' (renderList items) =
          if items.getD [] = [] then 2 else 14 + 8 * (items.getD []).length) :=
  ⟨escSafe_escStr, fun _ => escSafe_escStr _, countCh_lt_renderLog, countCh_lt_renderList⟩


end Dashboard
